import Mathlib

/-!
Shallow embedding of `py3status/modules/net_rate.py` (class `Py3status`),
covering the rate-sampling core: `_get_stat` (reading and filtering the
counter table) and `currentSpeed` (delta computation, interface selection,
zero fallback, and the `except TypeError` recovery path).

Python exceptions are modelled by an explicit error type `PyErr`; a value
`Except.error e` of `currentSpeed` means the call terminates with an
unhandled exception `e`, while `Except.ok` carries the outcome that reaches
the response-building code together with the post-call sampler state.
Floating-point rates are modelled as rationals; Python raises
`ZeroDivisionError` on `x / 0.0` rather than producing `Inf`, which the
model mirrors with an explicit guard.

The device file contents are passed in as `Option (List String)`:
`none` models an unreadable `devfile` (Python `open` raising `IOError`),
`some lines` the list of lines read by `readlines()` (without trailing
newlines). `currentSpeed` reads the file twice (lines 105 and 122 of the
source) and calls `time()` twice (lines 109 and 123), so it takes two file
arguments and two timestamps.
-/

namespace NetRate

/-- Python exception kinds that can arise in the modelled code. -/
inductive PyErr
  | typeError
  | keyError
  | valueError
  | indexError
  | zeroDivisionError
  | ioError
  deriving DecidableEq, Repr

/-- Configuration parameters of `Py3status` relevant to the sampling core
(`all_interfaces`, `interfaces`, `interfaces_blacklist`, `hide_if_zero`,
`format_no_connection`), after `post_config_hook` has normalized the lists. -/
structure Config where
  all_interfaces : Bool
  interfaces : List String
  interfaces_blacklist : List String
  hide_if_zero : Bool
  format_no_connection : String
  deriving DecidableEq, Repr

/-- The default configuration of the module. -/
def defaultConfig : Config :=
  { all_interfaces := true
    interfaces := []
    interfaces_blacklist := ["lo"]
    hide_if_zero := false
    format_no_connection := "" }

/-- One entry of the `deltas` dict: `{'total': up+down, 'up': up, 'down': down}`. -/
structure Delta where
  total : ℚ
  up : ℚ
  down : ℚ
  deriving DecidableEq, Repr

/-- Mutable sampler state: `self.last_interface`, `self.last_stat`,
`self.last_time`.  `last_stat` is `Option`-valued because `_get_stat` has a
`return None` branch (its dead `except StopIteration` handler), and
`currentSpeed`'s `except TypeError` exists to catch `zip(None, ns)`. -/
structure State where
  last_interface : Option String
  last_stat : Option (List (List String))
  last_time : ℚ
  deriving DecidableEq, Repr

/-- Python list indexing `l[i]` for `i ≥ 0`: `IndexError` when out of range. -/
def pyIdx (l : List String) (i : Nat) : Except PyErr String :=
  match l.get? i with
  | some x => Except.ok x
  | none => Except.error PyErr.indexError

/-- Accumulating decimal-digit parser over the characters of a word. -/
def digitsVal : List Char → Nat → Option Nat
  | [], acc => some acc
  | c :: cs, acc =>
      if c.isDigit then digitsVal cs (acc * 10 + (c.toNat - 48)) else none

/-- Python `int(s)` on the words produced by the counter-table split: an
optional minus sign followed by decimal digits; anything else raises
`ValueError`.  (Python's `int` also tolerates surrounding whitespace and a
plus sign, which the table's words never contain.) -/
def pyInt (s : String) : Except PyErr Int :=
  match s.data with
  | [] => Except.error PyErr.valueError
  | '-' :: rest =>
      match rest, digitsVal rest 0 with
      | _ :: _, some n => Except.ok (-(n : Int))
      | _, _ => Except.error PyErr.valueError
  | l =>
      match digitsVal l 0 with
      | some n => Except.ok (n : Int)
      | none => Except.error PyErr.valueError

/-- Python float division: `ZeroDivisionError` on a zero divisor
(Python raises rather than producing `Inf`/`NaN`). -/
def pyDiv (a b : ℚ) : Except PyErr ℚ :=
  if b = 0 then Except.error PyErr.zeroDivisionError else Except.ok (a / b)

/-- Python truthiness of the `interface` variable (`None` and `""` are falsy). -/
def pyTruthy : Option String → Bool
  | none => false
  | some s => !s.data.isEmpty

/-- Python whitespace as stripped by `str.strip()`. -/
def pyWs (c : Char) : Bool :=
  c = ' ' ∨ c = '\t' ∨ c = '\n' ∨ c = '\r' ∨ c = '\x0b' ∨ c = '\x0c'

/-- Python `str.strip()`: drop whitespace from both ends. -/
def pyStrip (s : String) : String :=
  ⟨((s.data.dropWhile pyWs).reverse.dropWhile pyWs).reverse⟩

/-- Worker for `pySplitSpace`: cut the character list at every single
space, like Python `str.split(" ")` (consecutive spaces yield empty
words). -/
def splitSpaceGo (acc : List Char) : List Char → List (List Char)
  | [] => [acc.reverse]
  | c :: cs =>
      if c = ' ' then acc.reverse :: splitSpaceGo [] cs
      else splitSpaceGo (c :: acc) cs

/-- Python `s.split(" ")`. -/
def pySplitSpace (s : String) : List String :=
  (splitSpaceGo [] s.data).map (fun cs => ⟨cs⟩)

/-- The candidate name extracted by `dev_filter`:
`x.strip().split(" ")[0][:-1]` — strip the line, take the first
space-separated word, drop its final character (the trailing colon). -/
def devName (line : String) : String :=
  ⟨(((pySplitSpace (pyStrip line)).headD "").data).dropLast⟩

/-- The `dev_filter` predicate inside `_get_stat`: reject if blacklisted,
else accept if `all_interfaces`, else accept if whitelisted, else reject. -/
def dev_filter (cfg : Config) (line : String) : Bool :=
  let x := devName line
  if x ∈ cfg.interfaces_blacklist then false
  else if cfg.all_interfaces then true
  else if x ∈ cfg.interfaces then true
  else false

/-- Splitting a data line into words:
`list(filter(lambda x: x, _x.split(" ")))` — split on single spaces and
drop the empty strings. -/
def splitWords (line : String) : List String :=
  (pySplitSpace line).filter (fun w => !w.data.isEmpty)

/-- Model of `Py3status._get_stat`: read the device file (an unreadable file raises
`IOError` out of `open`, uncaught), drop the two header lines, keep the
lines passing `dev_filter`, and split each into words. The source's
`except StopIteration: return None` branch is unreachable (neither
`readlines` nor the list comprehension raises `StopIteration`), so the
successful result is always a list. -/
def _get_stat (cfg : Config) (devfile : Option (List String)) :
    Except PyErr (List (List String)) :=
  match devfile with
  | none => Except.error PyErr.ioError
  | some lines =>
      Except.ok (((lines.drop 2).filter (dev_filter cfg)).map splitWords)

/-- One iteration of the pairing loop, in source order:
`down = int(new[1]) - int(old[1])`; `up = int(new[9]) - int(old[9])`;
`down /= timedelta`; `up /= timedelta`;
`deltas[new[0]] = {'total': up+down, 'up': up, 'down': down}`. -/
def pairDelta (timedelta : ℚ) (old new : List String) :
    Except PyErr (String × Delta) := do
  let a ← pyInt (← pyIdx new 1)
  let b ← pyInt (← pyIdx old 1)
  let down0 : Int := a - b
  let c ← pyInt (← pyIdx new 9)
  let d ← pyInt (← pyIdx old 9)
  let up0 : Int := c - d
  let down ← pyDiv (down0 : ℚ) timedelta
  let up ← pyDiv (up0 : ℚ) timedelta
  let name ← pyIdx new 0
  Except.ok (name, ⟨up + down, up, down⟩)

/-- Python-dict assignment `d[k] = v` on an insertion-ordered association
list: overwrite in place if the key exists, else append. -/
def dictInsert (d : List (String × Delta)) (k : String) (v : Delta) :
    List (String × Delta) :=
  if d.any (fun p => p.1 = k) then
    d.map (fun p => if p.1 = k then (k, v) else p)
  else d ++ [(k, v)]

/-- Python-dict lookup `d[k]` as an `Option` (first binding of `k`). -/
def dictGet (d : List (String × Delta)) (k : String) : Option Delta :=
  (d.find? (fun p => p.1 = k)).map (fun p => p.2)

/-- The loop `for old, new in zip(self.last_stat, ns): ...` accumulating the
`deltas` dict; `zip` silently truncates to the shorter of the two lists. -/
def computeDeltas (timedelta : ℚ) :
    List (List String) → List (List String) → List (String × Delta) →
    Except PyErr (List (String × Delta))
  | old :: olds, new :: news, acc => do
      let p ← pairDelta timedelta old new
      computeDeltas timedelta olds news (dictInsert acc p.1 p.2)
  | _, _, acc => Except.ok acc

/-- One comparison step of Python's `max`: the running best `(key, keyval)`
is replaced only when the next element's key value is strictly greater,
so ties keep the earliest element. -/
def maxStep (best : String × ℚ) (q : String × Delta) : String × ℚ :=
  if q.2.total > best.2 then (q.1, q.2.total) else best

/-- Model of `max(deltas, key=lambda x: deltas[x]['total'])`: first key of maximal
total in iteration (insertion) order; `ValueError` on an empty dict. -/
def maxKey (d : List (String × Delta)) : Except PyErr String :=
  match d with
  | [] => Except.error PyErr.valueError
  | p :: rest => Except.ok (rest.foldl maxStep (p.1, p.2.total)).1

/-- The local variables that survive the `try` block of `currentSpeed`
(`interface`, `delta`, `hide`) together with the sampler state as mutated
inside the block. -/
structure TryOut where
  interface : Option String
  delta : Option Delta
  hide : Bool
  st : State
  deriving DecidableEq, Repr

/-- The `try` block of `currentSpeed` (source lines 107–138).  `ns` is the
result of the first `_get_stat` call; `dev2` feeds the second call at line
122 and `t1`, `t2` are the two `time()` readings.  `zip(None, ns)` raises
`TypeError`; every other exception (`IndexError`, `ValueError`,
`ZeroDivisionError`, `KeyError`, `IOError`) propagates unchanged. -/
def tryBody (cfg : Config) (st : State) (ns : List (List String))
    (dev2 : Option (List String)) (t1 t2 : ℚ) : Except PyErr TryOut := do
  let timedelta := t1 - st.last_time
  match st.last_stat with
  | none => Except.error PyErr.typeError
  | some oldStat => do
      let deltas ← computeDeltas timedelta oldStat ns []
      let newStat ← _get_stat cfg dev2
      let st1 : State := { st with last_stat := some newStat, last_time := t2 }
      let interface ← maxKey deltas
      let dSel ←
        match dictGet deltas interface with
        | some v => Except.ok v
        | none => Except.error PyErr.keyError
      let (ifaceV, hide, st2) :=
        if dSel.total = 0 then
          (st.last_interface, cfg.hide_if_zero, st1)
        else
          (some interface, false, { st1 with last_interface := some interface })
      let delta ←
        if pyTruthy ifaceV then
          match ifaceV with
          | some n =>
            match dictGet deltas n with
            | some v => Except.ok (some v)
            | none => Except.error PyErr.keyError
          | none => Except.ok (none : Option Delta)
        else Except.ok (none : Option Delta)
      Except.ok ⟨ifaceV, delta, hide, st2⟩

/-- The observable pieces of the response built at the end of
`currentSpeed`. -/
structure Outcome where
  interface : Option String
  delta : Option Delta
  hide : Bool
  deriving DecidableEq, Repr

/-- Model of `Py3status.currentSpeed`: first `_get_stat` call (outside the `try`, so
`IOError` escapes), then the `try` block with `except TypeError` setting
`delta = None`, `interface = None`, `hide = self.hide_if_zero` and leaving
the state untouched (the only `TypeError` site, `zip(None, ns)`, precedes
every state update).  All other exceptions terminate the call. -/
def currentSpeed (cfg : Config) (st : State)
    (dev1 dev2 : Option (List String)) (t1 t2 : ℚ) :
    Except PyErr (Outcome × State) := do
  let ns ← _get_stat cfg dev1
  match tryBody cfg st ns dev2 t1 t2 with
  | Except.ok r => Except.ok (⟨r.interface, r.delta, r.hide⟩, r.st)
  | Except.error PyErr.typeError =>
      Except.ok (⟨none, none, cfg.hide_if_zero⟩, st)
  | Except.error e => Except.error e

/-- The `full_text` of the response: `""` when hidden,
`format_no_connection` when no interface, otherwise the externally
formatted rate text (its template expansion is the Presentation Service's
job; the payload records the colon-stripped interface name and the deltas). -/
inductive FullText
  | text (s : String)
  | formatted (iface : String) (delta : Option Delta)
  deriving DecidableEq, Repr

/-- Response building (source lines 145–162). -/
def renderResponse (cfg : Config) (o : Outcome) : FullText :=
  if o.hide then FullText.text ""
  else if ¬ pyTruthy o.interface then FullText.text cfg.format_no_connection
  else FullText.formatted ((o.interface.getD "").dropRight 1) o.delta


/-! ## Concrete fixtures

Small `/proc/net/dev`-shaped tables used in the concrete theorems.  Each
data row is `name: rx-bytes rx-packets errs drop fifo frame compressed
multicast tx-bytes tx-packets`, so word index 1 is the receive-byte counter
and word index 9 the transmit-byte counter. -/

/-- First header line of the counter table. -/
def hdr1 : String := "Inter-|   Receive                |  Transmit"

/-- Second header line of the counter table. -/
def hdr2 : String := " face |bytes    packets errs drop fifo frame compressed multicast|bytes    packets errs drop fifo colls carrier compressed"

/-- Loopback row (filtered out by the default blacklist). -/
def lineLo : String := "    lo: 100 10 0 0 0 0 0 0 100 10"

/-- Row for `eth0` with rx=1000, tx=200. -/
def lineEthOld : String := "  eth0: 1000 5 0 0 0 0 0 0 200 3"

/-- Row for `eth0` with rx=2000, tx=700. -/
def lineEthNew : String := "  eth0: 2000 6 0 0 0 0 0 0 700 4"

/-- Row for `wlan0` with rx=500, tx=100. -/
def lineWlanOld : String := " wlan0: 500 5 0 0 0 0 0 0 100 3"

/-- Row for `wlan0` with rx=400, tx=100 (receive counter decreased). -/
def lineWlanNew : String := " wlan0: 400 5 0 0 0 0 0 0 100 3"

/-- Stored snapshot row for `eth0` (rx=1000, tx=200), as words. -/
def rowEthOld : List String := splitWords lineEthOld

/-- Parsed row for `eth0` (rx=2000, tx=700). -/
def rowEthNew : List String := splitWords lineEthNew

/-- Stored snapshot row for `wlan0` (rx=500, tx=100). -/
def rowWlanOld : List String := splitWords lineWlanOld

/-- Parsed row for `wlan0` (rx=400, tx=100). -/
def rowWlanNew : List String := splitWords lineWlanNew

/-- Device file for the round-trip scenario: two header lines, `lo`, `eth0`. -/
def devRT : List String := [hdr1, hdr2, lineLo, lineEthNew]

/-- Device file with two eligible rows `eth0` (unchanged) and `wlan0`
(receive counter decreased). -/
def devTwo : List String := [hdr1, hdr2, lineLo, lineEthOld, lineWlanNew]

/-- Round-trip state: one stored `eth0` row, sampled at time 0. -/
def stRT : State :=
  { last_interface := none, last_stat := some [rowEthOld], last_time := 0 }

/-- State whose stored snapshot has two rows (`eth0` unchanged, `wlan0`
about to decrease) and whose last reported interface is `wlan0:`. -/
def stTwo : State :=
  { last_interface := some "wlan0:"
    last_stat := some [rowEthOld, rowWlanOld]
    last_time := 0 }

/-- Like `stTwo` but the last reported interface is not a current key. -/
def stMissing : State := { stTwo with last_interface := some "gone0:" }

/-- State after a failed construction-time read: no stored snapshot. -/
def stNoStat : State :=
  { last_interface := none, last_stat := none, last_time := 0 }

/-! ## Helper lemmas -/

/-- Bind on a successful `Except` computation. -/
theorem ok_bind {α β : Type} (a : α) (f : α → Except PyErr β) :
    (Except.ok a >>= f) = f a := rfl

/-- Bind on a failed `Except` computation. -/
theorem error_bind {α β : Type} (e : PyErr) (f : α → Except PyErr β) :
    ((Except.error e : Except PyErr α) >>= f) = Except.error e := rfl

/-- With no stored snapshot, `zip(None, ns)` raises `TypeError` before any
state update. -/
theorem tryBody_none_stat (cfg : Config) (st : State) (ns : List (List String))
    (dev2 : Option (List String)) (t1 t2 : ℚ) (h : st.last_stat = none) :
    tryBody cfg st ns dev2 t1 t2 = Except.error PyErr.typeError := by
  simp [tryBody, h]

/-- The `except TypeError` recovery: with no stored snapshot and a readable
device file, `currentSpeed` returns the no-data outcome and leaves the
state untouched. -/
theorem currentSpeed_none_stat (cfg : Config) (st : State)
    (dev1 dev2 : Option (List String)) (t1 t2 : ℚ) (ns : List (List String))
    (h : st.last_stat = none) (h1 : _get_stat cfg dev1 = Except.ok ns) :
    currentSpeed cfg st dev1 dev2 t1 t2 =
      Except.ok (⟨none, none, cfg.hide_if_zero⟩, st) := by
  simp [currentSpeed, h1, ok_bind, tryBody_none_stat cfg st ns dev2 t1 t2 h]

/-- The zero-total fallback with no previously reported interface:
`interface` becomes `None`, `delta` becomes `None`, `hide` mirrors
`hide_if_zero`, and the state is advanced (snapshot from the second read,
time from the second `time()` call) without touching `last_interface`. -/
theorem tryBody_fallback_nolast (cfg : Config) (st : State)
    (ns ns2 : List (List String)) (dev2 : Option (List String)) (t1 t2 : ℚ)
    (oldStat : List (List String)) (deltas : List (String × Delta))
    (m : String) (dm : Delta)
    (hst : st.last_stat = some oldStat)
    (hcd : computeDeltas (t1 - st.last_time) oldStat ns [] = Except.ok deltas)
    (h2 : _get_stat cfg dev2 = Except.ok ns2)
    (hm : maxKey deltas = Except.ok m)
    (hdm : dictGet deltas m = some dm)
    (h0 : dm.total = 0)
    (hli : st.last_interface = none) :
    tryBody cfg st ns dev2 t1 t2 =
      Except.ok ⟨none, none, cfg.hide_if_zero,
        { st with last_stat := some ns2, last_time := t2 }⟩ := by
  simp [tryBody, hst, hcd, h2, hm, hdm, h0, hli, ok_bind, pyTruthy]

/-- The zero-total fallback with a previously reported interface that is a
key of the current `deltas` dict: the returned name is the previously
reported one and the returned delta numbers are the ones computed for that
same previously reported interface in this cycle. -/
theorem tryBody_fallback_present (cfg : Config) (st : State)
    (ns ns2 : List (List String)) (dev2 : Option (List String)) (t1 t2 : ℚ)
    (oldStat : List (List String)) (deltas : List (String × Delta))
    (m n : String) (dm dn : Delta)
    (hst : st.last_stat = some oldStat)
    (hcd : computeDeltas (t1 - st.last_time) oldStat ns [] = Except.ok deltas)
    (h2 : _get_stat cfg dev2 = Except.ok ns2)
    (hm : maxKey deltas = Except.ok m)
    (hdm : dictGet deltas m = some dm)
    (h0 : dm.total = 0)
    (hli : st.last_interface = some n)
    (htr : pyTruthy (some n) = true)
    (hn : dictGet deltas n = some dn) :
    tryBody cfg st ns dev2 t1 t2 =
      Except.ok ⟨some n, some dn, cfg.hide_if_zero,
        { st with last_stat := some ns2, last_time := t2 }⟩ := by
  simp [tryBody, hst, hcd, h2, hm, hdm, h0, hli, htr, hn, ok_bind, error_bind]

/-- The zero-total fallback with a previously reported interface that is
not a key of the current `deltas` dict: `deltas[interface]` raises
`KeyError`, which the `except TypeError` clause does not catch. -/
theorem tryBody_fallback_missing (cfg : Config) (st : State)
    (ns ns2 : List (List String)) (dev2 : Option (List String)) (t1 t2 : ℚ)
    (oldStat : List (List String)) (deltas : List (String × Delta))
    (m n : String) (dm : Delta)
    (hst : st.last_stat = some oldStat)
    (hcd : computeDeltas (t1 - st.last_time) oldStat ns [] = Except.ok deltas)
    (h2 : _get_stat cfg dev2 = Except.ok ns2)
    (hm : maxKey deltas = Except.ok m)
    (hdm : dictGet deltas m = some dm)
    (h0 : dm.total = 0)
    (hli : st.last_interface = some n)
    (htr : pyTruthy (some n) = true)
    (hn : dictGet deltas n = none) :
    tryBody cfg st ns dev2 t1 t2 = Except.error PyErr.keyError := by
  simp [tryBody, hst, hcd, h2, hm, hdm, h0, hli, htr, hn, ok_bind, error_bind]

/-- A `tryBody` exception other than `TypeError` propagates out of
`currentSpeed` unchanged. -/
theorem currentSpeed_of_tryBody_error (cfg : Config) (st : State)
    (dev1 dev2 : Option (List String)) (t1 t2 : ℚ) (ns : List (List String))
    (e : PyErr)
    (h1 : _get_stat cfg dev1 = Except.ok ns)
    (he : tryBody cfg st ns dev2 t1 t2 = Except.error e)
    (hne : e ≠ PyErr.typeError) :
    currentSpeed cfg st dev1 dev2 t1 t2 = Except.error e := by
  cases e <;> simp [currentSpeed, h1, ok_bind, he] at hne ⊢

/-- A successful `tryBody` yields its outcome and mutated state. -/
theorem currentSpeed_of_tryBody_ok (cfg : Config) (st : State)
    (dev1 dev2 : Option (List String)) (t1 t2 : ℚ) (ns : List (List String))
    (r : TryOut)
    (h1 : _get_stat cfg dev1 = Except.ok ns)
    (hr : tryBody cfg st ns dev2 t1 t2 = Except.ok r) :
    currentSpeed cfg st dev1 dev2 t1 t2 =
      Except.ok (⟨r.interface, r.delta, r.hide⟩, r.st) := by
  simp [currentSpeed, h1, ok_bind, hr]

/-- With a zero time delta, one loop iteration whose four byte fields all
parse reaches `down /= timedelta` and raises `ZeroDivisionError`. -/
theorem pairDelta_zero_elapsed (old new : List String)
    (sa sb sc sd : String) (a b c d : Int)
    (ha : pyIdx new 1 = Except.ok sa) (ha' : pyInt sa = Except.ok a)
    (hb : pyIdx old 1 = Except.ok sb) (hb' : pyInt sb = Except.ok b)
    (hc : pyIdx new 9 = Except.ok sc) (hc' : pyInt sc = Except.ok c)
    (hd : pyIdx old 9 = Except.ok sd) (hd' : pyInt sd = Except.ok d) :
    pairDelta 0 old new = Except.error PyErr.zeroDivisionError := by
  simp [pairDelta, ha, ha', hb, hb', hc, hc', hd, hd', ok_bind, error_bind, pyDiv]

/-- Truncation by `zip`, right: rows of the current snapshot beyond the length
of the stored one never influence the deltas dict. -/
theorem computeDeltas_truncates_right (t : ℚ) :
    ∀ (old new extra : List (List String)) (acc : List (String × Delta)),
      old.length = new.length →
      computeDeltas t old (new ++ extra) acc = computeDeltas t old new acc := by
  intro old
  induction old with
  | nil =>
      intro new extra acc h
      have : new = [] := List.eq_nil_of_length_eq_zero h.symm
      subst this
      cases extra <;> simp [computeDeltas]
  | cons o os ih =>
      intro new extra acc h
      cases new with
      | nil => simp at h
      | cons n ns' =>
          simp only [List.cons_append, computeDeltas]
          cases hp : pairDelta t o n with
          | error e => simp [hp, error_bind]
          | ok p =>
              simp only [hp, ok_bind]
              exact ih ns' extra _ (by simpa using h)

/-- Truncation by `zip`, left: rows of the stored snapshot beyond the length
of the current one never influence the deltas dict. -/
theorem computeDeltas_truncates_left (t : ℚ) :
    ∀ (old new extra : List (List String)) (acc : List (String × Delta)),
      old.length = new.length →
      computeDeltas t (old ++ extra) new acc = computeDeltas t old new acc := by
  intro old
  induction old with
  | nil =>
      intro new extra acc h
      have : new = [] := List.eq_nil_of_length_eq_zero h.symm
      subst this
      cases extra <;> simp [computeDeltas]
  | cons o os ih =>
      intro new extra acc h
      cases new with
      | nil => simp at h
      | cons n ns' =>
          simp only [List.cons_append, computeDeltas]
          cases hp : pairDelta t o n with
          | error e => simp [hp, error_bind]
          | ok p =>
              simp only [hp, ok_bind]
              exact ih ns' extra _ (by simpa using h)

/-- A `computeDeltas` exception aborts the `try` block before any state
update. -/
theorem tryBody_computeDeltas_error (cfg : Config) (st : State)
    (ns : List (List String)) (dev2 : Option (List String)) (t1 t2 : ℚ)
    (oldStat : List (List String)) (e : PyErr)
    (hst : st.last_stat = some oldStat)
    (hcd : computeDeltas (t1 - st.last_time) oldStat ns [] = Except.error e) :
    tryBody cfg st ns dev2 t1 t2 = Except.error e := by
  simp [tryBody, hst, hcd, error_bind]

/-- Behaviour of the running-maximum fold of `maxKey`: either no element
strictly exceeds the initial key value and the fold keeps the initial pair
(with every element bounded by the initial value), or the fold returns the
first element whose key value strictly exceeds everything before it and
bounds everything after it. -/
theorem foldl_maxStep_spec (l : List (String × Delta)) :
    ∀ (k0 : String) (t0 : ℚ),
      (l.foldl maxStep (k0, t0) = (k0, t0) ∧ ∀ q ∈ l, q.2.total ≤ t0) ∨
      (∃ l₁ p l₂, l = l₁ ++ p :: l₂ ∧
        l.foldl maxStep (k0, t0) = (p.1, p.2.total) ∧
        t0 < p.2.total ∧
        (∀ q ∈ l₁, q.2.total < p.2.total) ∧
        (∀ q ∈ l₂, q.2.total ≤ p.2.total)) := by
  induction l with
  | nil => intro k0 t0; left; exact ⟨rfl, by simp⟩
  | cons q rest ih =>
      intro k0 t0
      by_cases hq : q.2.total > t0
      · have hstep : maxStep (k0, t0) q = (q.1, q.2.total) := by
          simp [maxStep, hq]
        rcases ih q.1 q.2.total with ⟨heq, hall⟩ | ⟨l₁, p, l₂, hsplit, heq, hlt, h1, h2⟩
        · right
          refine ⟨[], q, rest, by simp, ?_, hq, by simp, hall⟩
          simpa [hstep] using heq
        · right
          refine ⟨q :: l₁, p, l₂, by simp [hsplit], ?_, lt_trans hq hlt, ?_, h2⟩
          · simpa [hstep] using heq
          · intro q' hq'
            rcases List.mem_cons.mp hq' with h | h
            · subst h; exact hlt
            · exact h1 q' h
      · have hstep : maxStep (k0, t0) q = (k0, t0) := by
          simp [maxStep, hq]
        rcases ih k0 t0 with ⟨heq, hall⟩ | ⟨l₁, p, l₂, hsplit, heq, hlt, h1, h2⟩
        · left
          constructor
          · simpa [hstep] using heq
          · intro q' hq'
            rcases List.mem_cons.mp hq' with h | h
            · subst h; exact le_of_not_lt hq
            · exact hall q' h
        · right
          refine ⟨q :: l₁, p, l₂, by simp [hsplit], ?_, hlt, ?_, h2⟩
          · simpa [hstep] using heq
          · intro q' hq'
            rcases List.mem_cons.mp hq' with h | h
            · subst h; exact lt_of_le_of_lt (le_of_not_lt hq) hlt
            · exact h1 q' h

/-- Specification of `maxKey`: the returned key belongs to the dict, its
total bounds every total in the dict, and every entry strictly before it
has a strictly smaller total (Python's `max` keeps the first maximum). -/
theorem maxKey_spec (d : List (String × Delta)) (k : String)
    (h : maxKey d = Except.ok k) :
    ∃ l₁ p l₂, d = l₁ ++ p :: l₂ ∧ p.1 = k ∧
      (∀ q ∈ l₁, q.2.total < p.2.total) ∧
      (∀ q ∈ d, q.2.total ≤ p.2.total) := by
  cases d with
  | nil => simp [maxKey] at h
  | cons p0 rest =>
      have hk : (rest.foldl maxStep (p0.1, p0.2.total)).1 = k := by
        simpa [maxKey] using h
      rcases foldl_maxStep_spec rest p0.1 p0.2.total with
        ⟨heq, hall⟩ | ⟨l₁, p, l₂, hsplit, heq, hlt, h1, h2⟩
      · refine ⟨[], p0, rest, by simp, ?_, by simp, ?_⟩
        · rw [heq] at hk; exact hk
        · intro q hq
          rcases List.mem_cons.mp hq with hh | hh
          · subst hh; exact le_refl _
          · exact hall q hh
      · refine ⟨p0 :: l₁, p, l₂, by simp [hsplit], ?_, ?_, ?_⟩
        · rw [heq] at hk; exact hk
        · intro q hq
          rcases List.mem_cons.mp hq with hh | hh
          · subst hh; exact hlt
          · exact h1 q hh
        · intro q hq
          rcases List.mem_cons.mp hq with hh | hh
          · subst hh; exact le_of_lt hlt
          · rw [hsplit] at hh
            rcases List.mem_append.mp hh with hh2 | hh2
            · exact le_of_lt (h1 q hh2)
            · rcases List.mem_cons.mp hh2 with hh3 | hh3
              · subst hh3; exact le_refl _
              · exact h2 q hh3

/-- The nonzero-total branch: `last_interface` is updated to the selected
interface, `hide` is `false`, the selected interface's own delta is
returned, and the state advances to the second read and second timestamp. -/
theorem tryBody_nonzero (cfg : Config) (st : State)
    (ns ns2 : List (List String)) (dev2 : Option (List String)) (t1 t2 : ℚ)
    (oldStat : List (List String)) (deltas : List (String × Delta))
    (m : String) (dm : Delta)
    (hst : st.last_stat = some oldStat)
    (hcd : computeDeltas (t1 - st.last_time) oldStat ns [] = Except.ok deltas)
    (h2 : _get_stat cfg dev2 = Except.ok ns2)
    (hm : maxKey deltas = Except.ok m)
    (hdm : dictGet deltas m = some dm)
    (h0 : ¬ dm.total = 0)
    (htr : pyTruthy (some m) = true) :
    tryBody cfg st ns dev2 t1 t2 =
      Except.ok ⟨some m, some dm, false,
        { last_interface := some m, last_stat := some ns2, last_time := t2 }⟩ := by
  simp [tryBody, hst, hcd, h2, hm, hdm, h0, htr, ok_bind]

/-! ## Concrete evaluation lemmas -/

/-- Device file whose stored counterpart has fewer rows (one stored row,
two current rows): exercises `zip` truncation. -/
def devTrunc : List String := [hdr1, hdr2, lineEthNew, lineWlanNew]

/-- The deltas dict of the `stTwo`/`devTwo` cycle: `eth0` unchanged,
`wlan0` with a negative receive delta. -/
def deltasTwo : List (String × Delta) :=
  [("eth0:", ⟨0, 0, 0⟩), ("wlan0:", ⟨-100, 0, -100⟩)]

/-- Parsing `devRT` keeps only the `eth0` row. -/
theorem getStatRT_eq :
    _get_stat defaultConfig (some devRT) = Except.ok [rowEthNew] := rfl

/-- Parsing `devTwo` keeps the `eth0` and `wlan0` rows. -/
theorem getStatTwo_eq :
    _get_stat defaultConfig (some devTwo) = Except.ok [rowEthOld, rowWlanNew] := rfl

/-- Parsing `devTrunc` yields two rows. -/
theorem getStatTrunc_eq :
    _get_stat defaultConfig (some devTrunc) =
      Except.ok [rowEthNew, rowWlanNew] := rfl

/-- The round-trip deltas: rx 1000→2000 and tx 200→700 over one second give
down=1000, up=500, total=1500. -/
theorem computeDeltasRT_eq :
    computeDeltas ((1 : ℚ) - stRT.last_time) [rowEthOld] [rowEthNew] [] =
      Except.ok [("eth0:", ⟨1500, 500, 1000⟩)] := by
  have h10 : (1 : ℚ) - stRT.last_time = 1 := by norm_num [stRT]
  rw [h10]
  simp [computeDeltas, pairDelta, pyIdx, pyInt, digitsVal, pyDiv, dictInsert,
    ok_bind, rowEthOld, rowEthNew, splitWords, pySplitSpace, splitSpaceGo,
    lineEthOld, lineEthNew]
  norm_num

/-- The `stTwo`/`devTwo` deltas evaluate to `deltasTwo`. -/
theorem computeDeltasTwo_eq :
    computeDeltas ((1 : ℚ) - stTwo.last_time)
      [rowEthOld, rowWlanOld] [rowEthOld, rowWlanNew] [] =
      Except.ok deltasTwo := by
  have h10 : (1 : ℚ) - stTwo.last_time = 1 := by norm_num [stTwo]
  rw [h10]
  simp [computeDeltas, pairDelta, pyIdx, pyInt, digitsVal, pyDiv, dictInsert,
    ok_bind, rowEthOld, rowWlanOld, rowWlanNew, splitWords, pySplitSpace,
    splitSpaceGo, lineEthOld, lineWlanOld, lineWlanNew, deltasTwo]
  norm_num

/-- With one stored row against two current rows, the deltas are those of
the one-row pairing: the second current row is silently dropped. -/
theorem computeDeltasTrunc_eq :
    computeDeltas ((1 : ℚ) - stRT.last_time)
      [rowEthOld] [rowEthNew, rowWlanNew] [] =
      Except.ok [("eth0:", ⟨1500, 500, 1000⟩)] := by
  have hsplit : [rowEthNew, rowWlanNew] = [rowEthNew] ++ [rowWlanNew] := rfl
  rw [hsplit, computeDeltas_truncates_right _ _ _ _ _ (by rfl)]
  exact computeDeltasRT_eq

/-- Running `max` on `deltasTwo` selects `eth0:` (total 0 beats total −100). -/
theorem maxKeyTwo_eq : maxKey deltasTwo = Except.ok "eth0:" := by
  simp [maxKey, maxStep, deltasTwo]
  norm_num

/-- Lookup of the max-selected interface in `deltasTwo`. -/
theorem dictGetTwo_eth : dictGet deltasTwo "eth0:" = some ⟨0, 0, 0⟩ := rfl

/-- Lookup of the previously reported interface in `deltasTwo`. -/
theorem dictGetTwo_wlan : dictGet deltasTwo "wlan0:" = some ⟨-100, 0, -100⟩ := rfl

/-- A vanished interface is not a key of `deltasTwo`. -/
theorem dictGetTwo_gone : dictGet deltasTwo "gone0:" = none := rfl

/-! ## Claims -/

/-- C5: the specification claims that an unreadable counter source is
recovered locally into a NoData result and that `Sample` never terminates
with an unhandled error.  The code instead lets the `IOError` raised by
`open(self.devfile)` escape `currentSpeed` — the only handler is `except
TypeError`, and the first `_get_stat` call is not even inside the `try` —
so for every configuration, state and pair of timestamps an unreadable
device file terminates the call with an unhandled `IOError`. -/
theorem claim5_theorem :
    (∀ (cfg : Config) (st : State) (dev2 : Option (List String)) (t1 t2 : ℚ),
      currentSpeed cfg st none dev2 t1 t2 = Except.error PyErr.ioError) ∧
    _get_stat defaultConfig none = Except.error PyErr.ioError := by
  constructor
  · intro cfg st dev2 t1 t2
    simp [currentSpeed, _get_stat, error_bind]
  · rfl

/-- C6: on a successfully paired cycle each index pairs `old[i]` with
`new[i]` and computes `down = (int(new[1]) - int(old[1])) / elapsed`,
`up = (int(new[9]) - int(old[9])) / elapsed`, `total = up + down`, keyed by
`new[0]` (the new row's name); deltas may be negative and are not clamped.
Concretely, old `eth0 (rx=1000, tx=200)`, new `eth0 (rx=2000, tx=700)`,
elapsed 1 s yields down=1000, up=500, total=1500 end to end. -/
theorem claim6_theorem :
    (∀ (t : ℚ) (old new : List String) (sa sb sc sd s0 : String)
      (a b c d : Int),
      t ≠ 0 →
      pyIdx new 1 = Except.ok sa → pyInt sa = Except.ok a →
      pyIdx old 1 = Except.ok sb → pyInt sb = Except.ok b →
      pyIdx new 9 = Except.ok sc → pyInt sc = Except.ok c →
      pyIdx old 9 = Except.ok sd → pyInt sd = Except.ok d →
      pyIdx new 0 = Except.ok s0 →
      pairDelta t old new =
        Except.ok (s0,
          ⟨((c - d : Int) : ℚ) / t + ((a - b : Int) : ℚ) / t,
            ((c - d : Int) : ℚ) / t,
            ((a - b : Int) : ℚ) / t⟩)) ∧
    currentSpeed defaultConfig stRT (some devRT) (some devRT) 1 1 =
      Except.ok (⟨some "eth0:", some ⟨1500, 500, 1000⟩, false⟩,
        ⟨some "eth0:", some [rowEthNew], 1⟩) := by
  constructor
  · intro t old new sa sb sc sd s0 a b c d ht ha ha' hb hb' hc hc' hd hd' h0
    simp [pairDelta, ha, ha', hb, hb', hc, hc', hd, hd', h0, pyDiv, ht, ok_bind]
  · have htb := tryBody_nonzero defaultConfig stRT [rowEthNew] [rowEthNew]
      (some devRT) 1 1 [rowEthOld] [("eth0:", ⟨1500, 500, 1000⟩)] "eth0:"
      ⟨1500, 500, 1000⟩ rfl computeDeltasRT_eq getStatRT_eq rfl rfl
      (by norm_num) rfl
    exact currentSpeed_of_tryBody_ok defaultConfig stRT (some devRT)
      (some devRT) 1 1 [rowEthNew] _ getStatRT_eq htb

/-- C6 witness: the pairing formula applied at elapsed 1 s to the concrete
`eth0` rows. -/
theorem claim6_witness :
    pairDelta 1 rowEthOld rowEthNew = Except.ok ("eth0:", ⟨1500, 500, 1000⟩) := by
  have h := claim6_theorem.1 1 rowEthOld rowEthNew "2000" "1000" "700" "200"
    "eth0:" 2000 1000 700 200 one_ne_zero rfl rfl rfl rfl rfl rfl rfl rfl rfl
  rw [h]
  norm_num

/-- C7: the interface reported on a successfully paired non-fallback cycle
is one whose total is maximal among all paired interfaces, and on ties the
first in iteration (insertion) order wins: `maxKey` splits the dict into a
prefix of strictly smaller totals, the selected entry, and a suffix of
totals not exceeding it.  Concretely `{eth0: 500, wlan0: 1500}` selects
`wlan0`, and an exact tie keeps the first entry. -/
theorem claim7_theorem :
    (∀ (d : List (String × Delta)) (k : String),
      maxKey d = Except.ok k →
      ∃ l₁ p l₂, d = l₁ ++ p :: l₂ ∧ p.1 = k ∧
        (∀ q ∈ l₁, q.2.total < p.2.total) ∧
        (∀ q ∈ d, q.2.total ≤ p.2.total)) ∧
    maxKey [("eth0:", ⟨500, 250, 250⟩), ("wlan0:", ⟨1500, 750, 750⟩)] =
      Except.ok "wlan0:" ∧
    maxKey [("eth0:", ⟨500, 250, 250⟩), ("wlan0:", ⟨500, 250, 250⟩)] =
      Except.ok "eth0:" := by
  refine ⟨maxKey_spec, ?_, ?_⟩
  · simp [maxKey, maxStep]
    norm_num
  · simp [maxKey, maxStep]

/-- C7 witness: the max-selection specification applied to `deltasTwo`. -/
theorem claim7_witness :
    ∃ l₁ p l₂, deltasTwo = l₁ ++ p :: l₂ ∧ p.1 = "eth0:" ∧
      (∀ q ∈ l₁, q.2.total < p.2.total) ∧
      (∀ q ∈ deltasTwo, q.2.total ≤ p.2.total) :=
  claim7_theorem.1 deltasTwo "eth0:" maxKeyTwo_eq

/-- C8: eligibility of a candidate row is decided exactly as: reject if the
extracted name is blacklisted; else accept if `all_interfaces`; else accept
if whitelisted; else reject.  Hence a blacklisted name is always rejected
(even if whitelisted or with `all_interfaces`), and a row named `lo` under
the default blacklist is always rejected. -/
theorem claim8_theorem :
    (∀ (cfg : Config) (line : String),
      dev_filter cfg line = true ↔
        (devName line ∉ cfg.interfaces_blacklist ∧
          (cfg.all_interfaces = true ∨ devName line ∈ cfg.interfaces))) ∧
    (∀ (cfg : Config) (line : String),
      devName line ∈ cfg.interfaces_blacklist → dev_filter cfg line = false) ∧
    (∀ (ai : Bool) (wl : List String) (hz : Bool) (fnc : String)
      (line : String),
      devName line = "lo" →
      dev_filter ⟨ai, wl, ["lo"], hz, fnc⟩ line = false) := by
  refine ⟨?_, ?_, ?_⟩
  · intro cfg line
    by_cases hb : devName line ∈ cfg.interfaces_blacklist
    · simp [dev_filter, hb]
    · by_cases ha : cfg.all_interfaces <;>
        by_cases hw : devName line ∈ cfg.interfaces <;>
          simp [dev_filter, hb, ha, hw]
  · intro cfg line h
    simp [dev_filter, h]
  · intro ai wl hz fnc line h
    simp [dev_filter, h]

/-- C8 witness: a row whose name is both whitelisted and blacklisted, under
`all_interfaces = true`, is still rejected. -/
theorem claim8_witness :
    dev_filter ⟨true, ["eth1"], ["eth1"], false, ""⟩ " eth1: 1 2" = false :=
  claim8_theorem.2.1 ⟨true, ["eth1"], ["eth1"], false, ""⟩ " eth1: 1 2"
    (by decide)

/-- C9: `_get_stat` skips the first two lines as a header, keeps exactly
the remaining lines accepted by `dev_filter` (whose candidate name is the
first word with its trailing colon stripped), and splits each kept line
into words; the pairing then reads only word 0 (name), word 1 (the 1st
numeric field, receive bytes) and word 9 (the 9th numeric field, transmit
bytes) of the rows, as witnessed by `pairDelta` being insensitive to every
other field. -/
theorem claim9_theorem :
    (∀ (cfg : Config) (lines : List String) (rows : List (List String)),
      _get_stat cfg (some lines) = Except.ok rows →
      ∀ row, row ∈ rows ↔
        ∃ line, line ∈ lines.drop 2 ∧ dev_filter cfg line = true ∧
          row = splitWords line) ∧
    (∀ (t : ℚ) (old new old' new' : List String),
      old.get? 1 = old'.get? 1 → old.get? 9 = old'.get? 9 →
      new.get? 0 = new'.get? 0 → new.get? 1 = new'.get? 1 →
      new.get? 9 = new'.get? 9 →
      pairDelta t old new = pairDelta t old' new') ∧
    devName lineLo = "lo" ∧
    _get_stat defaultConfig (some devTwo) = Except.ok [rowEthOld, rowWlanNew] ∧
    splitWords lineEthOld =
      ["eth0:", "1000", "5", "0", "0", "0", "0", "0", "0", "200", "3"] := by
  refine ⟨?_, ?_, rfl, getStatTwo_eq, rfl⟩
  · intro cfg lines rows h row
    have hr : rows = ((lines.drop 2).filter (dev_filter cfg)).map splitWords := by
      have h' := h
      simp [_get_stat] at h'
      exact h'.symm
    subst hr
    constructor
    · intro hm
      rcases List.mem_map.mp hm with ⟨line, hline, hsw⟩
      rcases List.mem_filter.mp hline with ⟨hmem, hfil⟩
      exact ⟨line, hmem, hfil, hsw.symm⟩
    · rintro ⟨line, hmem, hfil, hrow⟩
      exact List.mem_map.mpr ⟨line, List.mem_filter.mpr ⟨hmem, hfil⟩, hrow.symm⟩
  · intro t old new old' new' ho1 ho9 hn0 hn1 hn9
    have e1 : pyIdx new 1 = pyIdx new' 1 := by unfold pyIdx; rw [hn1]
    have e2 : pyIdx old 1 = pyIdx old' 1 := by unfold pyIdx; rw [ho1]
    have e3 : pyIdx new 9 = pyIdx new' 9 := by unfold pyIdx; rw [hn9]
    have e4 : pyIdx old 9 = pyIdx old' 9 := by unfold pyIdx; rw [ho9]
    have e5 : pyIdx new 0 = pyIdx new' 0 := by unfold pyIdx; rw [hn0]
    simp [pairDelta, e1, e2, e3, e4, e5]

/-- C9 witness: the row characterization applied to the parsed `devTwo`. -/
theorem claim9_witness :
    rowEthOld ∈ ([rowEthOld, rowWlanNew] : List (List String)) ↔
      ∃ line, line ∈ devTwo.drop 2 ∧ dev_filter defaultConfig line = true ∧
        rowEthOld = splitWords line :=
  claim9_theorem.1 defaultConfig devTwo [rowEthOld, rowWlanNew] getStatTwo_eq
    rowEthOld

/-- C10: when the max total is zero and `last_interface` holds a name that
is not a key of this cycle's deltas dict, `delta = deltas[interface]`
raises an unhandled `KeyError` (only `TypeError` is caught), so the call
produces no result; when the name is a current key the fallback path does
return a result. -/
theorem claim10_theorem :
    (∀ (cfg : Config) (st : State) (dev1 dev2 : Option (List String))
      (t1 t2 : ℚ) (oldStat ns ns2 : List (List String))
      (deltas : List (String × Delta)) (m n : String) (dm : Delta),
      st.last_stat = some oldStat →
      _get_stat cfg dev1 = Except.ok ns →
      computeDeltas (t1 - st.last_time) oldStat ns [] = Except.ok deltas →
      _get_stat cfg dev2 = Except.ok ns2 →
      maxKey deltas = Except.ok m →
      dictGet deltas m = some dm →
      dm.total = 0 →
      st.last_interface = some n →
      pyTruthy (some n) = true →
      dictGet deltas n = none →
      currentSpeed cfg st dev1 dev2 t1 t2 = Except.error PyErr.keyError) ∧
    (∀ (cfg : Config) (st : State) (dev1 dev2 : Option (List String))
      (t1 t2 : ℚ) (oldStat ns ns2 : List (List String))
      (deltas : List (String × Delta)) (m n : String) (dm dn : Delta),
      st.last_stat = some oldStat →
      _get_stat cfg dev1 = Except.ok ns →
      computeDeltas (t1 - st.last_time) oldStat ns [] = Except.ok deltas →
      _get_stat cfg dev2 = Except.ok ns2 →
      maxKey deltas = Except.ok m →
      dictGet deltas m = some dm →
      dm.total = 0 →
      st.last_interface = some n →
      pyTruthy (some n) = true →
      dictGet deltas n = some dn →
      ∃ r : Outcome × State,
        currentSpeed cfg st dev1 dev2 t1 t2 = Except.ok r) := by
  constructor
  · intro cfg st dev1 dev2 t1 t2 oldStat ns ns2 deltas m n dm hst h1 hcd h2 hm
      hdm h0 hli htr hn
    exact currentSpeed_of_tryBody_error cfg st dev1 dev2 t1 t2 ns
      PyErr.keyError h1
      (tryBody_fallback_missing cfg st ns ns2 dev2 t1 t2 oldStat deltas m n dm
        hst hcd h2 hm hdm h0 hli htr hn)
      (by decide)
  · intro cfg st dev1 dev2 t1 t2 oldStat ns ns2 deltas m n dm dn hst h1 hcd h2
      hm hdm h0 hli htr hn
    exact ⟨_, currentSpeed_of_tryBody_ok cfg st dev1 dev2 t1 t2 ns _ h1
      (tryBody_fallback_present cfg st ns ns2 dev2 t1 t2 oldStat deltas m n dm
        dn hst hcd h2 hm hdm h0 hli htr hn)⟩

/-- C10 witness: `gone0:` was last reported but has no entry in this
cycle's deltas, so the call ends in an unhandled `KeyError`. -/
theorem claim10_witness :
    currentSpeed defaultConfig stMissing (some devTwo) (some devTwo) 1 1 =
      Except.error PyErr.keyError :=
  claim10_theorem.1 defaultConfig stMissing (some devTwo) (some devTwo) 1 1
    [rowEthOld, rowWlanOld] [rowEthOld, rowWlanNew] [rowEthOld, rowWlanNew]
    deltasTwo "eth0:" "gone0:" ⟨0, 0, 0⟩ rfl getStatTwo_eq computeDeltasTwo_eq
    getStatTwo_eq maxKeyTwo_eq dictGetTwo_eth rfl rfl rfl dictGetTwo_gone

/-- C1 counterexample: the stored snapshot has one row and the current read
has two, yet the cycle does not return NoData — `zip` silently truncates
and a rate (eth0, total 1500) is computed from the truncated pairing. -/
theorem claim1_counterexample :
    stRT.last_stat = some [rowEthOld] ∧
    _get_stat defaultConfig (some devTrunc) = Except.ok [rowEthNew, rowWlanNew] ∧
    ([rowEthOld] : List (List String)).length ≠
      ([rowEthNew, rowWlanNew] : List (List String)).length ∧
    currentSpeed defaultConfig stRT (some devTrunc) (some devTrunc) 1 1 =
      Except.ok (⟨some "eth0:", some ⟨1500, 500, 1000⟩, false⟩,
        ⟨some "eth0:", some [rowEthNew, rowWlanNew], 1⟩) ∧
    (some "eth0:" : Option String) ≠ none := by
  refine ⟨rfl, getStatTrunc_eq, by simp, ?_, by simp⟩
  have htb := tryBody_nonzero defaultConfig stRT [rowEthNew, rowWlanNew]
    [rowEthNew, rowWlanNew] (some devTrunc) 1 1 [rowEthOld]
    [("eth0:", ⟨1500, 500, 1000⟩)] "eth0:" ⟨1500, 500, 1000⟩ rfl
    computeDeltasTrunc_eq getStatTrunc_eq rfl rfl (by norm_num) rfl
  exact currentSpeed_of_tryBody_ok defaultConfig stRT (some devTrunc)
    (some devTrunc) 1 1 [rowEthNew, rowWlanNew] _ getStatTrunc_eq htb

/-- C1 (amended): a length mismatch between the stored and current filtered
sequences does not yield NoData — the pairing silently truncates to the
common prefix (rows beyond it on either side never influence the deltas) —
while the NoData recovery of this step is produced when the stored snapshot
is `None`, in which case the next cycle is not resynchronized (the state is
left untouched). -/
theorem claim1_theorem :
    (∀ (t : ℚ) (old new extra : List (List String))
      (acc : List (String × Delta)),
      old.length = new.length →
      computeDeltas t old (new ++ extra) acc = computeDeltas t old new acc) ∧
    (∀ (t : ℚ) (old new extra : List (List String))
      (acc : List (String × Delta)),
      old.length = new.length →
      computeDeltas t (old ++ extra) new acc = computeDeltas t old new acc) ∧
    (∀ (cfg : Config) (st : State) (dev1 dev2 : Option (List String))
      (t1 t2 : ℚ) (ns : List (List String)),
      st.last_stat = none →
      _get_stat cfg dev1 = Except.ok ns →
      currentSpeed cfg st dev1 dev2 t1 t2 =
        Except.ok (⟨none, none, cfg.hide_if_zero⟩, st)) := by
  refine ⟨computeDeltas_truncates_right, computeDeltas_truncates_left, ?_⟩
  intro cfg st dev1 dev2 t1 t2 ns h h1
  exact currentSpeed_none_stat cfg st dev1 dev2 t1 t2 ns h h1

/-- C1 witness: dropping the extra `wlan0` row does not change the deltas
of the one-row pairing. -/
theorem claim1_witness :
    computeDeltas 1 [rowEthOld] ([rowEthNew] ++ [rowWlanNew]) [] =
      computeDeltas 1 [rowEthOld] [rowEthNew] [] :=
  claim1_theorem.1 1 [rowEthOld] [rowEthNew] [rowWlanNew] [] rfl

/-- C2 counterexample: max total is zero (`eth0:` with delta 0), the last
reported interface `wlan0:` exists, and the returned delta numbers are the
ones computed for `wlan0:` (−100) — not the zero delta of the max-selected
`eth0:` as the claim states. -/
theorem claim2_counterexample :
    computeDeltas ((1 : ℚ) - stTwo.last_time)
        [rowEthOld, rowWlanOld] [rowEthOld, rowWlanNew] [] =
      Except.ok deltasTwo ∧
    maxKey deltasTwo = Except.ok "eth0:" ∧
    dictGet deltasTwo "eth0:" = some ⟨0, 0, 0⟩ ∧
    stTwo.last_interface = some "wlan0:" ∧
    currentSpeed defaultConfig stTwo (some devTwo) (some devTwo) 1 1 =
      Except.ok (⟨some "wlan0:", some ⟨-100, 0, -100⟩, false⟩,
        ⟨some "wlan0:", some [rowEthOld, rowWlanNew], 1⟩) ∧
    some (⟨-100, 0, -100⟩ : Delta) ≠ some (⟨0, 0, 0⟩ : Delta) := by
  refine ⟨computeDeltasTwo_eq, maxKeyTwo_eq, dictGetTwo_eth, rfl, ?_, ?_⟩
  · have htb := tryBody_fallback_present defaultConfig stTwo
      [rowEthOld, rowWlanNew] [rowEthOld, rowWlanNew] (some devTwo) 1 1
      [rowEthOld, rowWlanOld] deltasTwo "eth0:" "wlan0:" ⟨0, 0, 0⟩
      ⟨-100, 0, -100⟩ rfl computeDeltasTwo_eq getStatTwo_eq maxKeyTwo_eq
      dictGetTwo_eth rfl rfl rfl dictGetTwo_wlan
    exact currentSpeed_of_tryBody_ok defaultConfig stTwo (some devTwo)
      (some devTwo) 1 1 [rowEthOld, rowWlanNew] _ getStatTwo_eq htb
  · simp only [ne_eq, Option.some.injEq, Delta.mk.injEq]
    norm_num

/-- C2 (amended): when the max total is exactly zero and a truthy
`last_interface` exists, the returned name is `last_interface` and the
returned delta numbers are the ones computed in this cycle for
`last_interface` itself (not for the max-selected interface); the result
signals hide exactly when `hide_if_zero` is set. -/
theorem claim2_theorem :
    ∀ (cfg : Config) (st : State) (dev1 dev2 : Option (List String))
      (t1 t2 : ℚ) (oldStat ns ns2 : List (List String))
      (deltas : List (String × Delta)) (m n : String) (dm dn : Delta),
      st.last_stat = some oldStat →
      _get_stat cfg dev1 = Except.ok ns →
      computeDeltas (t1 - st.last_time) oldStat ns [] = Except.ok deltas →
      _get_stat cfg dev2 = Except.ok ns2 →
      maxKey deltas = Except.ok m →
      dictGet deltas m = some dm →
      dm.total = 0 →
      st.last_interface = some n →
      pyTruthy (some n) = true →
      dictGet deltas n = some dn →
      currentSpeed cfg st dev1 dev2 t1 t2 =
        Except.ok (⟨some n, some dn, cfg.hide_if_zero⟩,
          { st with last_stat := some ns2, last_time := t2 }) := by
  intro cfg st dev1 dev2 t1 t2 oldStat ns ns2 deltas m n dm dn hst h1 hcd h2 hm
    hdm h0 hli htr hn
  exact currentSpeed_of_tryBody_ok cfg st dev1 dev2 t1 t2 ns _ h1
    (tryBody_fallback_present cfg st ns ns2 dev2 t1 t2 oldStat deltas m n dm dn
      hst hcd h2 hm hdm h0 hli htr hn)

/-- C2 witness: the fallback on the `stTwo`/`devTwo` cycle returns
`wlan0:` with `wlan0:`-computed deltas. -/
theorem claim2_witness :
    currentSpeed defaultConfig stTwo (some devTwo) (some devTwo) 1 1 =
      Except.ok (⟨some "wlan0:", some ⟨-100, 0, -100⟩, false⟩,
        ⟨some "wlan0:", some [rowEthOld, rowWlanNew], 1⟩) :=
  claim2_theorem defaultConfig stTwo (some devTwo) (some devTwo) 1 1
    [rowEthOld, rowWlanOld] [rowEthOld, rowWlanNew] [rowEthOld, rowWlanNew]
    deltasTwo "eth0:" "wlan0:" ⟨0, 0, 0⟩ ⟨-100, 0, -100⟩ rfl getStatTwo_eq
    computeDeltasTwo_eq getStatTwo_eq maxKeyTwo_eq dictGetTwo_eth rfl rfl rfl
    dictGetTwo_wlan

/-- C3 counterexample: with elapsed time exactly zero the division is not
guarded — the call terminates with an unhandled `ZeroDivisionError`
instead of returning NoData. -/
theorem claim3_counterexample :
    ((0 : ℚ) - stRT.last_time = 0) ∧
    currentSpeed defaultConfig stRT (some devRT) (some devRT) 0 0 =
      Except.error PyErr.zeroDivisionError := by
  have hz : (0 : ℚ) - stRT.last_time = 0 := by simp [stRT]
  refine ⟨hz, ?_⟩
  have hp : pairDelta ((0 : ℚ) - stRT.last_time) rowEthOld rowEthNew =
      Except.error PyErr.zeroDivisionError := by
    rw [hz]
    exact pairDelta_zero_elapsed rowEthOld rowEthNew "2000" "1000" "700" "200"
      2000 1000 700 200 rfl rfl rfl rfl rfl rfl rfl rfl
  have hcd : computeDeltas ((0 : ℚ) - stRT.last_time)
      [rowEthOld] [rowEthNew] [] = Except.error PyErr.zeroDivisionError := by
    simp only [computeDeltas]
    rw [hp]
    rfl
  exact currentSpeed_of_tryBody_error defaultConfig stRT (some devRT)
    (some devRT) 0 0 [rowEthNew] PyErr.zeroDivisionError getStatRT_eq
    (tryBody_computeDeltas_error defaultConfig stRT [rowEthNew] (some devRT)
      0 0 [rowEthOld] PyErr.zeroDivisionError rfl hcd)
    (by decide)

/-- C3 (amended): the division by the elapsed time is not guarded: whenever
the elapsed time is exactly zero and at least one positionally paired row
has parseable byte fields, `currentSpeed` terminates with an unhandled
`ZeroDivisionError` (so no `Inf`/`NaN` is produced, but no NoData result is
returned either). -/
theorem claim3_theorem :
    ∀ (cfg : Config) (st : State) (dev1 dev2 : Option (List String))
      (t1 t2 : ℚ) (old new : List String) (olds news : List (List String))
      (sa sb sc sd : String) (a b c d : Int),
      st.last_stat = some (old :: olds) →
      _get_stat cfg dev1 = Except.ok (new :: news) →
      t1 - st.last_time = 0 →
      pyIdx new 1 = Except.ok sa → pyInt sa = Except.ok a →
      pyIdx old 1 = Except.ok sb → pyInt sb = Except.ok b →
      pyIdx new 9 = Except.ok sc → pyInt sc = Except.ok c →
      pyIdx old 9 = Except.ok sd → pyInt sd = Except.ok d →
      currentSpeed cfg st dev1 dev2 t1 t2 =
        Except.error PyErr.zeroDivisionError := by
  intro cfg st dev1 dev2 t1 t2 old new olds news sa sb sc sd a b c d hst h1 ht
    ha ha' hb hb' hc hc' hd hd'
  have hp : pairDelta (t1 - st.last_time) old new =
      Except.error PyErr.zeroDivisionError := by
    rw [ht]
    exact pairDelta_zero_elapsed old new sa sb sc sd a b c d ha ha' hb hb' hc
      hc' hd hd'
  have hcd : computeDeltas (t1 - st.last_time) (old :: olds) (new :: news) [] =
      Except.error PyErr.zeroDivisionError := by
    simp only [computeDeltas]
    rw [hp]
    rfl
  exact currentSpeed_of_tryBody_error cfg st dev1 dev2 t1 t2 (new :: news)
    PyErr.zeroDivisionError h1
    (tryBody_computeDeltas_error cfg st (new :: news) dev2 t1 t2 (old :: olds)
      PyErr.zeroDivisionError hst hcd)
    (by decide)

/-- C3 witness: the concrete round-trip state sampled again at time 0. -/
theorem claim3_witness :
    currentSpeed defaultConfig stRT (some devRT) (some devRT) 0 0 =
      Except.error PyErr.zeroDivisionError :=
  claim3_theorem defaultConfig stRT (some devRT) (some devRT) 0 0 rowEthOld
    rowEthNew [] [] "2000" "1000" "700" "200" 2000 1000 700 200 rfl
    getStatRT_eq (by simp [stRT]) rfl rfl rfl rfl rfl rfl rfl rfl

/-- C4 counterexample: a read-failure NoData cycle (stored snapshot `None`)
does not advance the stored snapshot to the newly read sequence — the
state, including `last_stat` and `last_time`, is left exactly as it was,
because the `TypeError` is raised before the update lines run. -/
theorem claim4_counterexample :
    stNoStat.last_stat = none ∧
    _get_stat defaultConfig (some devRT) = Except.ok [rowEthNew] ∧
    currentSpeed defaultConfig stNoStat (some devRT) (some devRT) 1 1 =
      Except.ok (⟨none, none, false⟩, stNoStat) ∧
    stNoStat.last_stat ≠ some [rowEthNew] := by
  refine ⟨rfl, getStatRT_eq, ?_, by simp [stNoStat]⟩
  exact currentSpeed_none_stat defaultConfig stNoStat (some devRT) (some devRT)
    1 1 [rowEthNew] rfl getStatRT_eq

/-- C4 (amended): the exception-recovery NoData path (stored snapshot
`None`) leaves the whole state un-updated, so it does not resynchronize;
only the zero-total fallback NoData path (max total zero with no previously
reported interface) advances the stored snapshot (to the second read) and
the timestamp while leaving the rate-bearing `last_interface` untouched. -/
theorem claim4_theorem :
    (∀ (cfg : Config) (st : State) (dev1 dev2 : Option (List String))
      (t1 t2 : ℚ) (ns : List (List String)),
      st.last_stat = none →
      _get_stat cfg dev1 = Except.ok ns →
      currentSpeed cfg st dev1 dev2 t1 t2 =
        Except.ok (⟨none, none, cfg.hide_if_zero⟩, st)) ∧
    (∀ (cfg : Config) (st : State) (dev1 dev2 : Option (List String))
      (t1 t2 : ℚ) (oldStat ns ns2 : List (List String))
      (deltas : List (String × Delta)) (m : String) (dm : Delta),
      st.last_stat = some oldStat →
      _get_stat cfg dev1 = Except.ok ns →
      computeDeltas (t1 - st.last_time) oldStat ns [] = Except.ok deltas →
      _get_stat cfg dev2 = Except.ok ns2 →
      maxKey deltas = Except.ok m →
      dictGet deltas m = some dm →
      dm.total = 0 →
      st.last_interface = none →
      currentSpeed cfg st dev1 dev2 t1 t2 =
        Except.ok (⟨none, none, cfg.hide_if_zero⟩,
          { st with last_stat := some ns2, last_time := t2 })) := by
  constructor
  · intro cfg st dev1 dev2 t1 t2 ns h h1
    exact currentSpeed_none_stat cfg st dev1 dev2 t1 t2 ns h h1
  · intro cfg st dev1 dev2 t1 t2 oldStat ns ns2 deltas m dm hst h1 hcd h2 hm
      hdm h0 hli
    exact currentSpeed_of_tryBody_ok cfg st dev1 dev2 t1 t2 ns _ h1
      (tryBody_fallback_nolast cfg st ns ns2 dev2 t1 t2 oldStat deltas m dm hst
        hcd h2 hm hdm h0 hli)

/-- C4 witness: the recovery path at the concrete no-snapshot state. -/
theorem claim4_witness :
    currentSpeed defaultConfig stNoStat (some devRT) (some devRT) 1 1 =
      Except.ok (⟨none, none, false⟩, stNoStat) :=
  claim4_theorem.1 defaultConfig stNoStat (some devRT) (some devRT) 1 1
    [rowEthNew] rfl getStatRT_eq

end NetRate
